import Mathlib

/-!
# Verification of the semaphore `tasks.LocalJob` runner

A shallow embedding of `services/tasks/local_job.go` (given as
`src/unnamed/part_000`): the data model (`db.Task`, `db.Template`,
`db.Inventory`, `db.Repository`, `db.Environment`, access keys), the
command builder (`getPlaybookArgs`, `getEnvironmentExtraVars`,
`getEnvironmentExtraVarsJSON`, `getEnvironmentENV`), the repository
synchronizer (`updateRepository`, `checkoutRepository`), the orchestration
(`Run`, `prepareRun`) and process cancellation (`Kill`).

External collaborators (the `encoding/json` parser, the git client, the
filesystem, the external process) are modelled by explicit outcome
parameters; JSON texts stored in the database are modelled by their parse
result (`malformed` vs the parsed value), which is the only property of
the text the Go code observes through `json.Unmarshal`.
-/

set_option autoImplicit false

namespace Semaphore

/-- A JSON value, as produced by `encoding/json` unmarshalling into
`map[string]interface{}`. Numbers are abstracted as integers (no claim
depends on float semantics). -/
inductive JValue where
  | null
  | bool (b : Bool)
  | num (n : Int)
  | str (s : String)
  | arr (elems : List JValue)
  | obj (fields : List (String × JValue))

/-- Abstraction of JSON string quoting (`json.Marshal` escaping is not
claim-relevant; only determinism of the serialization is used). -/
def quoteStr (s : String) : String := "\"" ++ s ++ "\""

mutual

/-- Deterministic serialization of a `JValue`, modelling `json.Marshal`
(which never fails on values built from unmarshalled JSON, strings, ints
and maps thereof). -/
def serializeJValue : JValue → String
  | .null => "null"
  | .bool b => cond b "true" "false"
  | .num n => toString n
  | .str s => quoteStr s
  | .arr es => "[" ++ serializeJList es ++ "]"
  | .obj fs => "\x7b" ++ serializeJFields fs ++ "\x7d"

def serializeJList : List JValue → String
  | [] => ""
  | [e] => serializeJValue e
  | e :: rest => serializeJValue e ++ "," ++ serializeJList rest

def serializeJFields : List (String × JValue) → String
  | [] => ""
  | [(k, v)] => quoteStr k ++ ":" ++ serializeJValue v
  | (k, v) :: rest => quoteStr k ++ ":" ++ serializeJValue v ++ "," ++ serializeJFields rest

end

/-- Go map assignment `m[k] = v` on the association-list model of a
`map[string]interface{}`: replace the binding of `k` if present, else
append it. -/
def setKey : List (String × JValue) → String → JValue → List (String × JValue)
  | [], k, v => [(k, v)]
  | (k0, v0) :: rest, k, v =>
      if k0 = k then (k, v) :: rest else (k0, v0) :: setKey rest k v

/-- A JSON object text stored in the database, modelled by what
`json.Unmarshal` into `map[string]interface{}` does with it. `empty` is
the empty string (the Go code tests `!= ""` before unmarshalling). -/
inductive JsonObjSrc where
  | empty
  | malformed (raw : String)
  | wellFormed (fields : List (String × JValue))

/-- A JSON string-array text (`Template.Arguments` / `Task.Arguments`),
modelled by what `json.Unmarshal` into `[]string` does with it. -/
inductive ArgsSrc where
  | malformed (raw : String)
  | wellFormed (args : List String)
deriving DecidableEq

/-- A JSON string-map text (`Environment.ENV`), modelled by what
`json.Unmarshal` into `map[string]string` does with it. -/
inductive EnvSrc where
  | malformed (raw : String)
  | wellFormed (vars : List (String × String))
deriving DecidableEq

/-- `db.TemplateType` (job-kind classifier of a Template). -/
inductive TemplateType where
  | task
  | build
  | deploy
deriving DecidableEq

/-- The string carried by a `db.TemplateType` value, as `json.Marshal`
renders it. -/
def TemplateType.toStr : TemplateType → String
  | .task => "task"
  | .build => "build"
  | .deploy => "deploy"

/-- `db.Template.App`: the automation-engine kind. The source only
recognizes `db.TemplateAnsible`; any other stored value is `other`. -/
inductive TemplateApp where
  | ansible
  | other (s : String)
deriving DecidableEq

/-- `db.InventoryType`: a string-typed enumeration; `other` stands for any
stored value that is none of the three recognized kinds. -/
inductive InventoryType where
  | file
  | static
  | staticYaml
  | other (s : String)
deriving DecidableEq

/-- `db.AccessKey.Type`: a string-typed enumeration; `other` stands for
any stored value that is none of the kinds the source's switches name. -/
inductive AccessKeyType where
  | ssh
  | loginPassword
  | none
  | other (s : String)
deriving DecidableEq

/-- The `SshKey` part of a `db.AccessKey` (only `Login` is read here). -/
structure SshKeyData where
  login : String
deriving DecidableEq

/-- `db.AccessKey` (the fields the source reads). -/
structure AccessKey where
  keyType : AccessKeyType
  sshKey : SshKeyData
deriving DecidableEq

/-- `db.AccessKeyInstallation`: `path` models `GetPath()`, and
`sshAgentSocketFile` models `.SshAgent.SocketFile`. -/
structure AccessKeyInstallation where
  path : String
  sshAgentSocketFile : String
deriving DecidableEq

/-- `db.Task` (the fields the source reads). -/
structure Task where
  id : Int
  playbook : String
  commitHash : Option String
  message : String
  version : Option String
  arguments : Option ArgsSrc
  dryRun : Bool
  debug : Bool
  diff : Bool
  limit : String
deriving DecidableEq

/-- `db.Template` (the fields the source reads). -/
structure Template where
  id : Int
  app : TemplateApp
  playbook : String
  arguments : Option ArgsSrc
  allowOverrideArgsInTask : Bool
  vaultKeyID : Option Int
  templateType : TemplateType
deriving DecidableEq

/-- `db.Inventory` (the fields the source reads). -/
structure Inventory where
  invType : InventoryType
  inventory : String
  sshKeyID : Option Int
  sshKey : AccessKey
  becomeKeyID : Option Int
  becomeKey : AccessKey
deriving DecidableEq

/-- `db.RepositoryType` as reported by `Repository.GetType()` — remote
VCS vs pre-existing local directory. -/
inductive RepositoryType where
  | git
  | local
deriving DecidableEq

/-- `db.Repository` (the fields the source reads; `getType` models the
`GetType()` accessor of the external `db` package, which classifies the
stored URL as remote VCS or pre-existing local directory). -/
structure Repository where
  gitURL : String
  getType : RepositoryType
deriving DecidableEq

/-- `db.Environment` (the fields the source reads). `json` models the
`JSON` field (a string), `env` the `ENV` field (a `*string`). -/
structure Environment where
  json : JsonObjSrc
  env : Option EnvSrc

/-- `util.Config` — the ambient configuration; only `TmpPath` is read. -/
structure Config where
  tmpPath : String
deriving DecidableEq

/-- The constant fields of a `tasks.LocalJob` (the transient
`Process` handle is modelled separately for `Kill`). -/
structure LocalJob where
  task : Task
  template : Template
  inventory : Inventory
  repository : Repository
  environment : Environment
  sshKeyInstallation : AccessKeyInstallation
  becomeKeyInstallation : AccessKeyInstallation
  vaultFileInstallation : AccessKeyInstallation

/-! ## Command builder: extra variables (source lines 52–132) -/

/-- The `taskDetails` map built by `getEnvironmentExtraVars`
(source lines 63–81), translated assignment by assignment. -/
def taskDetailsEV (t : LocalJob) (username : String) (incomingVersion : Option String) :
    List (String × JValue) :=
  let td : List (String × JValue) := []
  let td := setKey td "id" (.num t.task.id)
  let td := if t.task.message ≠ "" then setKey td "message" (.str t.task.message) else td
  let td := setKey td "username" (.str username)
  if t.template.templateType ≠ .task then
    let td := setKey td "type" (.str t.template.templateType.toStr)
    let td := match incomingVersion with
      | some v => setKey td "incoming_version" (.str v)
      | Option.none => td
    if t.template.templateType = .build then
      setKey td "target_version"
        (match t.task.version with | some v => JValue.str v | Option.none => JValue.null)
    else td
  else td

/-- `getEnvironmentExtraVars` (source lines 52–88): unmarshal
`Environment.JSON` when non-empty (failure aborts), then inject
`semaphore_vars.task_details`. -/
def getEnvironmentExtraVars (t : LocalJob) (username : String)
    (incomingVersion : Option String) : Except String (List (String × JValue)) :=
  let base : Except String (List (String × JValue)) :=
    match t.environment.json with
    | .malformed raw => .error ("unmarshal: " ++ raw)
    | .empty => .ok []
    | .wellFormed fields => .ok fields
  match base with
  | .error e => .error e
  | .ok extraVars =>
      .ok (setKey extraVars "semaphore_vars"
        (.obj (setKey [] "task_details" (.obj (taskDetailsEV t username incomingVersion)))))

/-- `getEnvironmentExtraVarsJSON` (source lines 90–132): a textual
duplicate of `getEnvironmentExtraVars` in the source, ending with
`json.Marshal` of the built map; translated independently, with its own
copy of the `taskDetails` construction, mirroring the duplication. -/
def getEnvironmentExtraVarsJSON (t : LocalJob) (username : String)
    (incomingVersion : Option String) : Except String String :=
  let base : Except String (List (String × JValue)) :=
    match t.environment.json with
    | .malformed raw => .error ("unmarshal: " ++ raw)
    | .empty => .ok []
    | .wellFormed fields => .ok fields
  match base with
  | .error e => .error e
  | .ok extraVars =>
      let td : List (String × JValue) := []
      let td := setKey td "id" (.num t.task.id)
      let td := if t.task.message ≠ "" then setKey td "message" (.str t.task.message) else td
      let td := setKey td "username" (.str username)
      let td :=
        if t.template.templateType ≠ .task then
          let td2 := setKey td "type" (.str t.template.templateType.toStr)
          let td3 := match incomingVersion with
            | some v => setKey td2 "incoming_version" (.str v)
            | Option.none => td2
          if t.template.templateType = .build then
            setKey td3 "target_version"
              (match t.task.version with | some v => JValue.str v | Option.none => JValue.null)
          else td3
        else td
      let extraVars := setKey extraVars "semaphore_vars"
        (.obj (setKey [] "task_details" (.obj td)))
      .ok (serializeJValue (.obj extraVars))

/-- `getEnvironmentENV` (source lines 134–149): unmarshal
`Environment.ENV` (when the pointer is non-nil) into a string map and
render `KEY=VALUE` entries. -/
def getEnvironmentENV (t : LocalJob) : Except String (List String) :=
  match t.environment.env with
  | Option.none => .ok []
  | some (.malformed raw) => .error ("unmarshal: " ++ raw)
  | some (.wellFormed vars) => .ok (vars.map (fun kv => kv.1 ++ "=" ++ kv.2))

/-! ## Command builder: `getPlaybookArgs` (source lines 178–281)

The Go function returns named results `(args, err)`; the crucial detail
kept by this translation is that `err` is a *named return* which the
extra-variables block assigns and later blocks may or may not overwrite,
so each block below threads `err` explicitly. -/

/-- Result of `getPlaybookArgs`: the `(args, err)` named returns plus the
messages passed to `t.Log`. -/
structure PlaybookArgsRet where
  args : List String
  err : Option String
  logs : List String
deriving DecidableEq

/-- The inventory argument switch (source lines 184–196); `none` is the
`default` arm (any unrecognized inventory kind). -/
def inventoryArg (cfg : Config) (t : LocalJob) : Option String :=
  match t.inventory.invType with
  | .file => some t.inventory.inventory
  | .static => some (cfg.tmpPath ++ "/inventory_" ++ toString t.task.id)
  | .staticYaml => some (cfg.tmpPath ++ "/inventory_" ++ toString t.task.id ++ ".yml")
  | .other _ => Option.none

/-- The inventory-login credential block (source lines 202–216). -/
def sshKeyArgs (t : LocalJob) : Except String (List String) :=
  match t.inventory.sshKeyID with
  | Option.none => .ok []
  | some _ =>
    match t.inventory.sshKey.keyType with
    | .ssh =>
        if t.inventory.sshKey.sshKey.login ≠ "" then
          .ok ["--extra-vars=\x7b\"ansible_user\": \"" ++ t.inventory.sshKey.sshKey.login ++ "\"\x7d"]
        else .ok []
    | .loginPassword => .ok ["--extra-vars=@" ++ t.sshKeyInstallation.path]
    | .none => .ok []
    | .other _ => .error "access key does not suite for inventory\x27s user credentials"

/-- The inventory-become credential block (source lines 218–227); note the
`ssh` kind falls into the `default` arm here. -/
def becomeKeyArgs (t : LocalJob) : Except String (List String) :=
  match t.inventory.becomeKeyID with
  | Option.none => .ok []
  | some _ =>
    match t.inventory.becomeKey.keyType with
    | .loginPassword => .ok ["--extra-vars=@" ++ t.becomeKeyInstallation.path]
    | .none => .ok []
    | _ => .error "access key does not suite for inventory\x27s sudo user credentials"

/-- The `--limit` handling and final assembly of `getPlaybookArgs`
(source lines 271–280): whatever `err` currently holds is returned. -/
def playbookFinish (t : LocalJob) (playbookName : String) (args : List String)
    (err : Option String) (logs : List String)
    (templateExtraArgs taskExtraArgs : List String) : PlaybookArgsRet :=
  let taskExtraArgs2 :=
    if t.task.limit ≠ "" then taskExtraArgs ++ ["--limit=" ++ t.task.limit] else taskExtraArgs
  let logs2 :=
    if t.task.limit ≠ "" then logs ++ ["--limit=" ++ t.task.limit] else logs
  { args := args ++ templateExtraArgs ++ taskExtraArgs2 ++ [playbookName]
    err := err
    logs := logs2 }

/-- The task-level extra-arguments block (source lines 262–269): only
entered when the template allows overrides and the task stores arguments;
a successful unmarshal resets the named `err`, a failed one returns. -/
def playbookTaskArgs (t : LocalJob) (playbookName : String) (args : List String)
    (err : Option String) (logs : List String) (templateExtraArgs : List String) :
    PlaybookArgsRet :=
  match t.template.allowOverrideArgsInTask, t.task.arguments with
  | true, some (.malformed raw) =>
      { args := args, err := some ("unmarshal: " ++ raw)
        logs := logs ++ ["Invalid format of the TaskRunner extra arguments, must be valid JSON"] }
  | true, some (.wellFormed xs) =>
      playbookFinish t playbookName args Option.none logs templateExtraArgs xs
  | _, _ => playbookFinish t playbookName args err logs templateExtraArgs []

/-- The template-level extra-arguments block (source lines 253–260): only
entered when the template stores arguments; a successful unmarshal resets
the named `err`, a failed one returns. -/
def playbookTemplateArgs (t : LocalJob) (playbookName : String) (args : List String)
    (err : Option String) (logs : List String) : PlaybookArgsRet :=
  match t.template.arguments with
  | some (.malformed raw) =>
      { args := args, err := some ("unmarshal: " ++ raw)
        logs := logs ++ ["Invalid format of the template extra arguments, must be valid JSON"] }
  | some (.wellFormed xs) => playbookTaskArgs t playbookName args Option.none logs xs
  | Option.none => playbookTaskArgs t playbookName args err logs []

/-- `getPlaybookArgs` (source lines 178–281). -/
def getPlaybookArgs (cfg : Config) (t : LocalJob) (username : String)
    (incomingVersion : Option String) : PlaybookArgsRet :=
  let playbookName := if t.task.playbook = "" then t.template.playbook else t.task.playbook
  match inventoryArg cfg t with
  | Option.none => { args := [], err := some "invalid invetory type", logs := [] }
  | some inventory =>
    match sshKeyArgs t with
    | .error e => { args := ["-i", inventory], err := some e, logs := [] }
    | .ok sshArgs =>
      match becomeKeyArgs t with
      | .error e => { args := ["-i", inventory] ++ sshArgs, err := some e, logs := [] }
      | .ok becomeArgs =>
        let args := ["-i", inventory] ++ sshArgs ++ becomeArgs
        let args := args ++ (if t.task.debug then ["-vvvv"] else [])
        let args := args ++ (if t.task.diff then ["--diff"] else [])
        let args := args ++ (if t.task.dryRun then ["--check"] else [])
        let args := args ++ (match t.template.vaultKeyID with
          | some _ => ["--vault-password-file", t.vaultFileInstallation.path]
          | Option.none => [])
        match getEnvironmentExtraVarsJSON t username incomingVersion with
        | .error e =>
            playbookTemplateArgs t playbookName args (some e)
              [e, "Could not remove command environment, if existant it will be passed to --extra-vars. This is not fatal but be aware of side effects"]
        | .ok ev =>
            let args := if ev ≠ "" then args ++ ["--extra-vars", ev] else args
            playbookTemplateArgs t playbookName args Option.none []

/-! ## `Kill` (source lines 34–42) -/

/-- The live `*os.Process` handle as `Kill` observes it: `killError`
models the outcome of `Process.Kill()` on this handle. -/
structure ProcessHandle where
  killError : Option String
deriving DecidableEq

/-- What one `Kill` invocation does: how many kill requests it issued,
what it logged, and the `Process` field afterwards. `Kill` has no error
return in the source (`func (t *LocalJob) Kill()`), so the result carries
none. -/
structure KillResult where
  killAttempts : Nat
  logs : List String
  processAfter : Option ProcessHandle
deriving DecidableEq

/-- `Kill` (source lines 34–42): return immediately when no process
handle was recorded; otherwise issue one kill request and log (only) a
failure of it. -/
def Kill (process : Option ProcessHandle) : KillResult :=
  match process with
  | Option.none => { killAttempts := 0, logs := [], processAfter := Option.none }
  | some p =>
      { killAttempts := 1
        logs := match p.killError with | some e => [e] | Option.none => []
        processAfter := some p }

/-! ## Repository synchronizer (source lines 376–446) -/

/-- Outcome of `GitRepository.ValidateRepo()`: success, a
does-not-exist error (`os.IsNotExist` holds), or any other error. -/
inductive ValidateRes where
  | ok
  | errNotExist
  | errOther
deriving DecidableEq

/-- Outcomes of the external git client and filesystem operations one
`updateRepository` run can perform. -/
structure GitEnv where
  validateRepo : ValidateRes
  canBePulled : Bool
  pullOk : Bool
  removeAllOk : Bool
  cloneOk : Bool
deriving DecidableEq

/-- The externally visible operations of one `updateRepository` run. -/
inductive GitEvent where
  | validate
  | removeAll
  | pull
  | clone
deriving DecidableEq

/-- `updateRepository` (source lines 376–409): validate the working copy;
if invalid, remove any stale directory (when the error is not
does-not-exist) and clone; if valid and pullable, pull and stop on
success; otherwise remove the directory and clone. -/
def updateRepository (g : GitEnv) : Except String Unit × List GitEvent :=
  let cloneRes : Except String Unit := if g.cloneOk then .ok () else .error "clone failed"
  match g.validateRepo with
  | .errNotExist => (cloneRes, [.validate, .clone])
  | .errOther =>
      if g.removeAllOk then (cloneRes, [.validate, .removeAll, .clone])
      else (.error "removeAll failed", [.validate, .removeAll])
  | .ok =>
      if g.canBePulled ∧ g.pullOk then (.ok (), [.validate, .pull])
      else
        let pullEvents : List GitEvent := if g.canBePulled then [.pull] else []
        if g.removeAllOk then
          (cloneRes, [GitEvent.validate] ++ pullEvents ++ [.removeAll, .clone])
        else
          (.error "removeAll failed", [GitEvent.validate] ++ pullEvents ++ [.removeAll])

/-! ## Orchestration: `prepareRun` and `Run` (source lines 283–374,
411–456) -/

/-- The credential roles an installation can be created for. -/
inductive KeyRole where
  | sshLogin
  | become
  | vault
deriving DecidableEq

/-- The externally visible operations of one `Run` invocation. -/
inductive REvent where
  | setStatusRunning
  | statRepo
  | git (e : GitEvent)
  | checkout
  | installKey (role : KeyRole)
  | installRequirements
  | appStart
  | destroyKeys
deriving DecidableEq

/-- Outcomes of the external collaborators one `prepareRun`/`Run`
invocation consults, in program order. -/
structure ExtEnv where
  checkTmpDirOk : Bool
  statRepoOk : Bool
  git : GitEnv
  validateAfterSync : ValidateRes
  checkoutOk : Bool
  installInventoryOk : Bool
  installRequirementsOk : Bool
  vaultInstallOk : Bool
  appRunOk : Bool
deriving DecidableEq

/-- `checkoutRepository` (source lines 411–446): re-validate the working
copy, then check out the pinned commit when the Task carries one; the
no-pinned-commit path performs no checkout (the hash-recording code is
commented out in the source). -/
def checkoutRepository (env : ExtEnv) (t : LocalJob) : Except String Unit × List REvent :=
  match env.validateAfterSync with
  | .errNotExist => (.error "validate failed", [])
  | .errOther => (.error "validate failed", [])
  | .ok =>
      match t.task.commitHash with
      | some _ =>
          (if env.checkoutOk then .ok () else .error "checkout failed", [.checkout])
      | Option.none => (.ok (), [])

/-- Modelled from the spec: `installInventory` is not among the given
sources. Per §4.2 of the spec it installs the inventory login and become
credentials (recording an `AccessKeyInstallation` for each role whose
key is present and of an installable kind) and materializes static
inventory text; it can fail, in which case the run is aborted. This
definition is the login-credential part of it. -/
def sshInstallEvents (t : LocalJob) : List REvent :=
  match t.inventory.sshKeyID, t.inventory.sshKey.keyType with
  | some _, .ssh => [REvent.installKey .sshLogin]
  | some _, .loginPassword => [REvent.installKey .sshLogin]
  | _, _ => []

/-- Modelled from the spec (continued): the become-credential
installation performed by `installInventory`. -/
def becomeInstallEvents (t : LocalJob) : List REvent :=
  match t.inventory.becomeKeyID, t.inventory.becomeKey.keyType with
  | some _, .loginPassword => [REvent.installKey .become]
  | _, _ => []

/-- Modelled from the spec (continued): `installInventory` itself. -/
def installInventory (env : ExtEnv) (t : LocalJob) : Except String (List REvent) :=
  if env.installInventoryOk then
    .ok (sshInstallEvents t ++ becomeInstallEvents t)
  else .error "failed to install inventory"

/-- `installVaultKeyFile` (source lines 448–456): nothing to do without a
vault key reference; otherwise install the vault password file. -/
def installVaultKeyFile (env : ExtEnv) (t : LocalJob) : Except String Unit × List REvent :=
  match t.template.vaultKeyID with
  | Option.none => (.ok (), [])
  | some _ =>
      if env.vaultInstallOk then (.ok (), [.installKey .vault])
      else (.error "vault install failed", [])

/-- `prepareRun` (source lines 334–374): tmp dir, then — depending on the
repository kind — either a bare existence check of the local directory or
sync + checkout, then inventory materialization, dependency
installation, and vault key installation. -/
def prepareRun (env : ExtEnv) (t : LocalJob) : Except String Unit × List REvent :=
  if ¬ env.checkTmpDirOk then (.error "tmp dir failed", [])
  else
    let repoStep : Except String Unit × List REvent :=
      match t.repository.getType with
      | .local =>
          (if env.statRepoOk then .ok () else .error "repository not found", [.statRepo])
      | .git =>
          match updateRepository env.git with
          | (.error e, ue) => (.error e, ue.map .git)
          | (.ok _, ue) =>
              match checkoutRepository env t with
              | (cr, ce) => (cr, ue.map .git ++ ce)
    match repoStep with
    | (.error e, evs) => (.error e, evs)
    | (.ok _, evs) =>
        match installInventory env t with
        | .error e => (.error e, evs)
        | .ok invEvs =>
            if ¬ env.installRequirementsOk then
              (.error "galaxy failed", evs ++ invEvs ++ [.installRequirements])
            else
              match installVaultKeyFile env t with
              | (.error e, ve) => (.error e, evs ++ invEvs ++ [.installRequirements] ++ ve)
              | (.ok _, ve) => (.ok (), evs ++ invEvs ++ [.installRequirements] ++ ve)

/-- The outcome of one `Run` invocation: a normal return (`ok` or
`err`), or a runtime panic propagating out of `Run`. -/
inductive RunOutcome where
  | ok
  | err (e : String)
  | panicked (msg : String)
deriving DecidableEq

/-- Modelled from the spec: `destroyKeys` is not among the given sources.
Per §4.2 of the spec it removes every recorded `AccessKeyInstallation` of
this run, best-effort, logging failures without escalating; the trace
records the single cleanup call as one `destroyKeys` event. -/
def destroyKeysEvents : List REvent := [REvent.destroyKeys]

/-- `Run` (source lines 283–332): set the running status, prepare
(returning its error directly — note that `defer t.destroyKeys()` is
registered only *after* `prepareRun` has succeeded), dispatch on the
template app (the `default` arm is a Go `panic`, whose unwinding still
runs the registered defer), build arguments and environment, then start
the external process. -/
def Run (cfg : Config) (env : ExtEnv) (t : LocalJob) (username : String)
    (incomingVersion : Option String) : RunOutcome × List REvent :=
  let evs0 : List REvent := [.setStatusRunning]
  match prepareRun env t with
  | (.error e, pe) => (.err e, evs0 ++ pe)
  | (.ok _, pe) =>
      let evs1 := evs0 ++ pe
      match t.template.app with
      | .other _ => (.panicked "unknown template app", evs1 ++ destroyKeysEvents)
      | .ansible =>
          match (getPlaybookArgs cfg t username incomingVersion).err with
          | some e => (.err e, evs1 ++ destroyKeysEvents)
          | Option.none =>
              match getEnvironmentENV t with
              | .error e => (.err e, evs1 ++ destroyKeysEvents)
              | .ok _ =>
                  (if env.appRunOk then .ok else .err "app run failed",
                   evs1 ++ [.appStart] ++ destroyKeysEvents)

/-! ## Spec-side definition for the argument order (spec §4.3)

`specOrderedArgs` follows the spec's sentence: after the inventory flag,
the fixed-order concatenation of inventory-login extras, become extras,
debug, diff, check, vault flag, extra-variables payload, template-level
arguments, task-level arguments (when permitted), `--limit`, playbook. -/

def specOrderedArgs (cfg : Config) (t : LocalJob) (username : String)
    (incomingVersion : Option String) : List String :=
  ["-i", (inventoryArg cfg t).getD ""]
  ++ ((sshKeyArgs t).toOption.getD [])
  ++ ((becomeKeyArgs t).toOption.getD [])
  ++ (if t.task.debug then ["-vvvv"] else [])
  ++ (if t.task.diff then ["--diff"] else [])
  ++ (if t.task.dryRun then ["--check"] else [])
  ++ (if (t.template.vaultKeyID).isSome then
        ["--vault-password-file", t.vaultFileInstallation.path] else [])
  ++ (match getEnvironmentExtraVarsJSON t username incomingVersion with
      | .ok ev => if ev ≠ "" then ["--extra-vars", ev] else []
      | .error _ => [])
  ++ (match t.template.arguments with
      | some (.wellFormed xs) => xs
      | _ => [])
  ++ (if t.template.allowOverrideArgsInTask then
        match t.task.arguments with
        | some (.wellFormed xs) => xs
        | _ => []
      else [])
  ++ (if t.task.limit ≠ "" then ["--limit=" ++ t.task.limit] else [])
  ++ [if t.task.playbook = "" then t.template.playbook else t.task.playbook]

/-- Whether a stored JSON object text unmarshals without error (the
empty string is skipped by the source, hence also error-free). -/
def JsonObjSrc.parses : JsonObjSrc → Bool
  | .malformed _ => false
  | _ => true

/-! ## Concrete sample inputs (used by witnesses and counterexamples) -/

def sampleKey : AccessKey := { keyType := .none, sshKey := { login := "" } }

def sampleInstallation : AccessKeyInstallation :=
  { path := "/tmp/sem/access_key_1", sshAgentSocketFile := "/tmp/sem/ssh_agent_1.sock" }

def sampleTask : Task :=
  { id := 42, playbook := "", commitHash := Option.none, message := "", version := Option.none
    arguments := Option.none, dryRun := false, debug := false, diff := false, limit := "" }

def sampleTemplate : Template :=
  { id := 7, app := .ansible, playbook := "site.yml", arguments := Option.none
    allowOverrideArgsInTask := false, vaultKeyID := Option.none, templateType := .task }

def sampleInventory : Inventory :=
  { invType := .static, inventory := "", sshKeyID := Option.none, sshKey := sampleKey
    becomeKeyID := Option.none, becomeKey := sampleKey }

def sampleRepository : Repository := { gitURL := "/srv/repo", getType := .local }

def sampleEnvironment : Environment := { json := .empty, env := Option.none }

def sampleJob : LocalJob :=
  { task := sampleTask, template := sampleTemplate, inventory := sampleInventory
    repository := sampleRepository, environment := sampleEnvironment
    sshKeyInstallation := sampleInstallation, becomeKeyInstallation := sampleInstallation
    vaultFileInstallation := sampleInstallation }

def sampleConfig : Config := { tmpPath := "/tmp/sem" }

/-- An external environment in which every collaborator succeeds. -/
def allOkEnv : ExtEnv :=
  { checkTmpDirOk := true, statRepoOk := true
    git := { validateRepo := .ok, canBePulled := true, pullOk := true
             removeAllOk := true, cloneOk := true }
    validateAfterSync := .ok, checkoutOk := true, installInventoryOk := true
    installRequirementsOk := true, vaultInstallOk := true, appRunOk := true }

deriving instance DecidableEq for Except

/-- Whether a run event is a version-control operation (clone, pull,
validate, directory removal of the working copy, or checkout). -/
def isVcsEvent : REvent → Bool
  | .git _ => true
  | .checkout => true
  | _ => false

/-- Whether `updateRepository` attempts a directory removal on the given
external outcomes: an existing-but-invalid working copy, or a valid one
that could not be (successfully) pulled. -/
def staleRemovalNeeded (g : GitEnv) : Bool :=
  g.validateRepo == .errOther
    || (g.validateRepo == .ok && !(g.canBePulled && g.pullOk))

/-- A job whose inventory carries a login-password SSH credential (so
`installInventory` records one `AccessKeyInstallation`). -/
def keyedJob : LocalJob :=
  { sampleJob with inventory :=
      { sampleInventory with
          sshKeyID := some 3
          sshKey := { keyType := .loginPassword, sshKey := { login := "" } } } }

/-- External outcomes in which dependency installation (the step after
`installInventory`) fails. -/
def galaxyFailEnv : ExtEnv := { allOkEnv with installRequirementsOk := false }

/-- A job whose template stores an app kind the source does not
recognize. -/
def unknownAppJob : LocalJob :=
  { sampleJob with template := { sampleTemplate with app := .other "terraform" } }

/-- A second such job, with a different unknown app kind. -/
def unknownAppJob2 : LocalJob :=
  { sampleJob with template := { sampleTemplate with app := .other "pulumi" } }

/-- A job whose `Environment.JSON` does not unmarshal, with no template-
or task-level argument lists stored. -/
def badEnvJob : LocalJob :=
  { sampleJob with environment := { json := .malformed "\x7boops", env := Option.none } }

/-- A richly configured job exercising every optional argument segment:
debug, diff, dry-run, vault credential, template and task argument
lists, and a host-pattern limit. -/
def richJob : LocalJob :=
  { sampleJob with
      task := { sampleTask with
                  debug := true, diff := true, dryRun := true
                  arguments := some (.wellFormed ["-t", "deploy"]), limit := "web*"
                  playbook := "other.yml" }
      template := { sampleTemplate with
                      vaultKeyID := some 9
                      arguments := some (.wellFormed ["--forks", "10"])
                      allowOverrideArgsInTask := true }
      inventory := { sampleInventory with invType := .staticYaml } }

/-- A build-kind job with a message and a target version. -/
def buildJob : LocalJob :=
  { sampleJob with
      task := { sampleTask with message := "hello", version := some "v1" }
      template := { sampleTemplate with templateType := .build } }

/-- External outcomes in which the pre-existing local repository
directory is absent. -/
def statFailEnv : ExtEnv := { allOkEnv with statRepoOk := false }

/-- Git outcomes: invalid (but existing) working copy whose directory
removal fails. -/
def removeFailGit : GitEnv :=
  { validateRepo := .errOther, canBePulled := false, pullOk := false
    removeAllOk := false, cloneOk := true }

/-- Git outcomes: valid, fast-forwardable working copy whose pull
succeeds. -/
def pullOkGit : GitEnv :=
  { validateRepo := .ok, canBePulled := true, pullOk := true
    removeAllOk := true, cloneOk := true }

/-! ## Helper lemmas -/

theorem playbookFinish_args (t : LocalJob) (pb : String) (args : List String)
    (err : Option String) (logs : List String) (tmpl task : List String) :
    (playbookFinish t pb args err logs tmpl task).args
      = args ++ tmpl ++ (task ++ (if t.task.limit ≠ "" then ["--limit=" ++ t.task.limit] else []))
          ++ [pb] := by
  unfold playbookFinish
  by_cases h : t.task.limit = "" <;> simp [h]

theorem playbookTaskArgs_args_prefix (t : LocalJob) (pb : String) (args : List String)
    (err : Option String) (logs : List String) (tmpl : List String) :
    ∃ rest, (playbookTaskArgs t pb args err logs tmpl).args = args ++ rest := by
  unfold playbookTaskArgs
  rcases t.template.allowOverrideArgsInTask with _ | _ <;>
    rcases harg : t.task.arguments with _ | (_ | _) <;>
      simp [playbookFinish_args, List.append_assoc]

theorem playbookTemplateArgs_args_prefix (t : LocalJob) (pb : String) (args : List String)
    (err : Option String) (logs : List String) :
    ∃ rest, (playbookTemplateArgs t pb args err logs).args = args ++ rest := by
  unfold playbookTemplateArgs
  rcases harg : t.template.arguments with _ | (_ | _)
  · exact playbookTaskArgs_args_prefix ..
  · exact ⟨[], by simp⟩
  · exact playbookTaskArgs_args_prefix ..

theorem playbookFinish_take2 (t : LocalJob) (pb a b : String) (mid : List String)
    (err : Option String) (logs : List String) (tmpl task : List String) :
    (playbookFinish t pb (a :: b :: mid) err logs tmpl task).args.take 2 = [a, b] := by
  simp [playbookFinish_args]

theorem playbookTaskArgs_take2 (t : LocalJob) (pb a b : String) (mid : List String)
    (err : Option String) (logs : List String) (tmpl : List String) :
    (playbookTaskArgs t pb (a :: b :: mid) err logs tmpl).args.take 2 = [a, b] := by
  unfold playbookTaskArgs
  rcases t.template.allowOverrideArgsInTask with _ | _ <;>
    rcases harg : t.task.arguments with _ | (_ | _) <;>
      simp [playbookFinish_take2]

theorem playbookTemplateArgs_take2 (t : LocalJob) (pb a b : String) (mid : List String)
    (err : Option String) (logs : List String) :
    (playbookTemplateArgs t pb (a :: b :: mid) err logs).args.take 2 = [a, b] := by
  unfold playbookTemplateArgs
  rcases harg : t.template.arguments with _ | (_ | _) <;>
    simp [playbookTaskArgs_take2]

theorem getPlaybookArgs_take2 (cfg : Config) (t : LocalJob) (u : String)
    (iv : Option String) (inv : String) (hinv : inventoryArg cfg t = some inv) :
    (getPlaybookArgs cfg t u iv).args.take 2 = ["-i", inv] := by
  unfold getPlaybookArgs
  rw [hinv]
  rcases hssh : sshKeyArgs t with e | sargs
  · simp
  rcases hbec : becomeKeyArgs t with e | bargs
  · simp
  rcases hev : getEnvironmentExtraVarsJSON t u iv with e | ev
  · simp only [List.cons_append, List.nil_append, List.append_assoc]
    exact playbookTemplateArgs_take2 ..
  · by_cases hne : ev = "" <;>
      simp only [hne, ne_eq, not_true_eq_false, not_false_eq_true, if_true, if_false,
        ite_true, ite_false, List.cons_append, List.nil_append, List.append_assoc] <;>
      exact playbookTemplateArgs_take2 ..

theorem playbookTemplateArgs_success (t : LocalJob) (pb : String) (args : List String)
    (err0 : Option String) (logs : List String)
    (h : (playbookTemplateArgs t pb args err0 logs).err = Option.none) :
    (playbookTemplateArgs t pb args err0 logs).args
      = args
        ++ (match t.template.arguments with
            | some (.wellFormed xs) => xs
            | _ => [])
        ++ (if t.template.allowOverrideArgsInTask then
              match t.task.arguments with
              | some (.wellFormed xs) => xs
              | _ => []
            else [])
        ++ (if t.task.limit ≠ "" then ["--limit=" ++ t.task.limit] else [])
        ++ [pb] := by
  unfold playbookTemplateArgs playbookTaskArgs at h ⊢
  rcases harg : t.template.arguments with _ | (_ | xs) <;>
    rcases hallow : t.template.allowOverrideArgsInTask with _ | _ <;>
      rcases htask : t.task.arguments with _ | (_ | ys) <;>
        simp only [harg, hallow, htask] at h ⊢ <;>
        first
          | simp at h
          | simp [playbookFinish_args, List.append_assoc]

/-- C5: for every configuration on which `getPlaybookArgs` succeeds, the
argument vector equals the spec's fixed-order assembly: inventory flag,
inventory-login extras, become extras, `-vvvv` if Debug, `--diff` if
Diff, `--check` if DryRun, the vault-password-file flag if a vault
credential is referenced, the merged extra-variables payload, template
arguments, task arguments (when overrides are permitted), `--limit` when
Task.Limit is non-empty, and the resolved playbook path last. -/
theorem getPlaybookArgs_argument_order (cfg : Config) (t : LocalJob) (u : String)
    (iv : Option String) (h : (getPlaybookArgs cfg t u iv).err = Option.none) :
    (getPlaybookArgs cfg t u iv).args = specOrderedArgs cfg t u iv := by
  unfold getPlaybookArgs at h ⊢
  unfold specOrderedArgs
  rcases hinv : inventoryArg cfg t with _ | inv <;> simp only [hinv] at h ⊢
  · simp at h
  rcases hssh : sshKeyArgs t with e | sargs <;> simp only [hssh] at h ⊢
  · simp at h
  rcases hbec : becomeKeyArgs t with e | bargs <;> simp only [hbec] at h ⊢
  · simp at h
  rcases hv : t.template.vaultKeyID with _ | k <;> simp only [hv] at h ⊢ <;>
    rcases hev : getEnvironmentExtraVarsJSON t u iv with e | ev <;> simp only [hev] at h ⊢
  all_goals rw [playbookTemplateArgs_success _ _ _ _ _ h]
  all_goals try by_cases hne : ev = ""
  all_goals simp_all [Except.toOption, List.append_assoc]

/-! ## Claim C4 -/

/-- C4: the built inventory argument is `<tmpRoot>/inventory_<TaskID>`
for static inline text, `<tmpRoot>/inventory_<TaskID>.yml` for static
YAML text, the stored path for the inline-file kind, and any other kind
makes `getPlaybookArgs` fail with the invalid-inventory-type error before
building any further arguments. -/
theorem getPlaybookArgs_inventory_convention (cfg : Config) (t : LocalJob)
    (u : String) (iv : Option String) :
    (t.inventory.invType = .file →
      (getPlaybookArgs cfg t u iv).args.take 2 = ["-i", t.inventory.inventory]) ∧
    (t.inventory.invType = .static →
      (getPlaybookArgs cfg t u iv).args.take 2
        = ["-i", cfg.tmpPath ++ "/inventory_" ++ toString t.task.id]) ∧
    (t.inventory.invType = .staticYaml →
      (getPlaybookArgs cfg t u iv).args.take 2
        = ["-i", cfg.tmpPath ++ "/inventory_" ++ toString t.task.id ++ ".yml"]) ∧
    (∀ s, t.inventory.invType = .other s →
      getPlaybookArgs cfg t u iv
        = { args := [], err := some "invalid invetory type", logs := [] }) := by
  refine ⟨fun hty => ?_, fun hty => ?_, fun hty => ?_, fun s hty => ?_⟩
  · exact getPlaybookArgs_take2 cfg t u iv _ (by unfold inventoryArg; rw [hty])
  · exact getPlaybookArgs_take2 cfg t u iv _ (by unfold inventoryArg; rw [hty])
  · exact getPlaybookArgs_take2 cfg t u iv _ (by unfold inventoryArg; rw [hty])
  · have hnone : inventoryArg cfg t = Option.none := by unfold inventoryArg; rw [hty]
    unfold getPlaybookArgs
    rw [hnone]

/-- Witness for C4 at a concrete input: a static-YAML inventory on task
42 yields the inventory argument `/tmp/sem/inventory_42.yml`. -/
theorem getPlaybookArgs_inventory_convention_witness :
    (getPlaybookArgs sampleConfig
        { sampleJob with inventory := { sampleInventory with invType := .staticYaml } }
        "admin" Option.none).args.take 2 = ["-i", "/tmp/sem/inventory_42.yml"] := by
  have h := (getPlaybookArgs_inventory_convention sampleConfig
      { sampleJob with inventory := { sampleInventory with invType := .staticYaml } }
      "admin" Option.none).2.2.1 rfl
  simpa using h

/-! ## Claim C6 -/

theorem lookup_setKey (m : List (String × JValue)) (k : String) (v : JValue) :
    (setKey m k v).lookup k = some v := by
  induction m with
  | nil => simp [setKey, List.lookup]
  | cons kv rest ih =>
      obtain ⟨k0, v0⟩ := kv
      by_cases h : k0 = k
      · subst h; simp [setKey, List.lookup]
      · have hne : (k == k0) = false := by
          simp only [beq_eq_false_iff_ne, ne_eq]
          exact fun he => h he.symm
        simp [setKey, h, List.lookup, hne, ih]

theorem taskDetailsEV_lookups (t : LocalJob) (u : String) (iv : Option String) :
    (taskDetailsEV t u iv).lookup "id" = some (.num t.task.id) ∧
    (taskDetailsEV t u iv).lookup "message"
      = (if t.task.message ≠ "" then some (.str t.task.message) else Option.none) ∧
    (taskDetailsEV t u iv).lookup "username" = some (.str u) ∧
    (taskDetailsEV t u iv).lookup "type"
      = (if t.template.templateType ≠ .task then some (.str t.template.templateType.toStr)
         else Option.none) ∧
    (taskDetailsEV t u iv).lookup "incoming_version"
      = (if t.template.templateType ≠ .task then iv.map JValue.str else Option.none) ∧
    (taskDetailsEV t u iv).lookup "target_version"
      = (if t.template.templateType = .build then
           some (match t.task.version with | some v => JValue.str v | Option.none => JValue.null)
         else Option.none) := by
  unfold taskDetailsEV
  rcases htt : t.template.templateType <;>
    by_cases hmsg : t.task.message = "" <;>
      rcases iv with _ | v <;>
        simp [htt, hmsg, setKey, List.lookup]

/-- C6: for every username, incoming version and well-formed Environment,
the extra-variables map contains `semaphore_vars.task_details` with `id`
always, `message` iff the Task message is non-empty (verbatim),
`username` always, `type` iff the job kind is not the plain task kind,
`incoming_version` iff additionally the caller supplied one, and
`target_version` (equal to Task.Version) iff the job kind is build. -/
theorem extraVars_taskDetails (t : LocalJob) (u : String) (iv : Option String)
    (h : t.environment.json.parses = true) :
    ∃ m, getEnvironmentExtraVars t u iv = .ok m ∧
      m.lookup "semaphore_vars"
        = some (.obj [("task_details", .obj (taskDetailsEV t u iv))]) ∧
      (taskDetailsEV t u iv).lookup "id" = some (.num t.task.id) ∧
      (taskDetailsEV t u iv).lookup "message"
        = (if t.task.message ≠ "" then some (.str t.task.message) else Option.none) ∧
      (taskDetailsEV t u iv).lookup "username" = some (.str u) ∧
      (taskDetailsEV t u iv).lookup "type"
        = (if t.template.templateType ≠ .task then some (.str t.template.templateType.toStr)
           else Option.none) ∧
      (taskDetailsEV t u iv).lookup "incoming_version"
        = (if t.template.templateType ≠ .task then iv.map JValue.str else Option.none) ∧
      (taskDetailsEV t u iv).lookup "target_version"
        = (if t.template.templateType = .build then
             some (match t.task.version with | some v => JValue.str v | Option.none => JValue.null)
           else Option.none) := by
  obtain ⟨h1, h2, h3, h4, h5, h6⟩ := taskDetailsEV_lookups t u iv
  rcases hjson : t.environment.json with _ | raw | fields
  · refine ⟨setKey [] "semaphore_vars"
        (.obj (setKey [] "task_details" (.obj (taskDetailsEV t u iv)))),
      ?_, ?_, h1, h2, h3, h4, h5, h6⟩
    · unfold getEnvironmentExtraVars; rw [hjson]
    · simp [setKey, List.lookup]
  · rw [hjson] at h; simp [JsonObjSrc.parses] at h
  · refine ⟨setKey fields "semaphore_vars"
        (.obj (setKey [] "task_details" (.obj (taskDetailsEV t u iv)))),
      ?_, ?_, h1, h2, h3, h4, h5, h6⟩
    · unfold getEnvironmentExtraVars; rw [hjson]
    · simpa [setKey] using lookup_setKey fields "semaphore_vars"
        (.obj (setKey [] "task_details" (.obj (taskDetailsEV t u iv))))

/-! ## Claim C10 -/

/-- C10: `getEnvironmentExtraVarsJSON` returns exactly the JSON
serialization of the map returned by `getEnvironmentExtraVars` on the
same inputs, and the two fail on exactly the same inputs. -/
theorem extraVarsJSON_refines_extraVars (t : LocalJob) (u : String) (iv : Option String) :
    getEnvironmentExtraVarsJSON t u iv
        = Except.map (fun m => serializeJValue (.obj m)) (getEnvironmentExtraVars t u iv) ∧
    ((getEnvironmentExtraVarsJSON t u iv).isOk ↔ (getEnvironmentExtraVars t u iv).isOk) := by
  have hmap : getEnvironmentExtraVarsJSON t u iv
      = Except.map (fun m => serializeJValue (.obj m)) (getEnvironmentExtraVars t u iv) := by
    unfold getEnvironmentExtraVarsJSON getEnvironmentExtraVars taskDetailsEV
    rcases t.environment.json with _ | raw | fields <;> rfl
  refine ⟨hmap, ?_⟩
  rw [hmap]
  rcases getEnvironmentExtraVars t u iv with e | m <;> simp [Except.map, Except.isOk, Except.toBool]

/-! ## Claim C7 -/

/-- C7: `Kill` with no recorded process handle is a safe no-op — no kill
request, no log, no state change (and `Kill` has no error to return);
with a live handle it issues exactly one kill request and only logs a
termination failure. -/
theorem kill_noop_without_process :
    (Kill Option.none = { killAttempts := 0, logs := [], processAfter := Option.none }) ∧
    ∀ p : ProcessHandle,
      (Kill (some p)).killAttempts = 1 ∧
      (Kill (some p)).processAfter = some p ∧
      (Kill (some p)).logs = (match p.killError with | some e => [e] | Option.none => []) :=
  ⟨rfl, fun _ => ⟨rfl, rfl, rfl⟩⟩

/-! ## Claim C8 -/

theorem sshInstallEvents_not_vcs (t : LocalJob) :
    ∀ e ∈ sshInstallEvents t, isVcsEvent e = false := by
  unfold sshInstallEvents
  rcases t.inventory.sshKeyID with _ | k <;>
    rcases t.inventory.sshKey.keyType <;>
      simp [isVcsEvent]

theorem becomeInstallEvents_not_vcs (t : LocalJob) :
    ∀ e ∈ becomeInstallEvents t, isVcsEvent e = false := by
  unfold becomeInstallEvents
  rcases t.inventory.becomeKeyID with _ | k <;>
    rcases t.inventory.becomeKey.keyType <;>
      simp [isVcsEvent]

/-- C8: for a Repository of the pre-existing local-directory kind,
`prepareRun` performs no VCS operation at all (no clone, pull, validate
or checkout event appears in its trace); it only checks that the path
exists, and fails the run with the stat error when it does not. -/
theorem prepareRun_local_no_vcs (env : ExtEnv) (t : LocalJob)
    (hloc : t.repository.getType = .local) :
    (∀ e ∈ (prepareRun env t).2, isVcsEvent e = false) ∧
    (env.checkTmpDirOk = true → env.statRepoOk = false →
       prepareRun env t = (.error "repository not found", [.statRepo])) := by
  unfold prepareRun installInventory installVaultKeyFile
  rw [hloc]
  rcases hc : env.checkTmpDirOk <;>
    rcases hs : env.statRepoOk <;>
      rcases hi : env.installInventoryOk <;>
        rcases hr : env.installRequirementsOk <;>
          rcases hv : t.template.vaultKeyID with _ | k <;>
            rcases hvi : env.vaultInstallOk <;>
              simp [hc, hs, hi, hr, hv, hvi, isVcsEvent] <;>
              (intro a ha
               repeat' first
                 | exact sshInstallEvents_not_vcs t a ha
                 | exact becomeInstallEvents_not_vcs t a ha
                 | (rcases ha with ha | ha)
                 | rfl)

/-- Witness for C8: with a local repository whose directory is missing,
`prepareRun` performs no VCS operation and fails with the stat error. -/
theorem prepareRun_local_no_vcs_witness :
    (∀ e ∈ (prepareRun statFailEnv sampleJob).2, isVcsEvent e = false) ∧
    prepareRun statFailEnv sampleJob = (.error "repository not found", [.statRepo]) := by
  have h := prepareRun_local_no_vcs statFailEnv sampleJob rfl
  exact ⟨h.1, h.2 rfl rfl⟩

/-! ## Claim C9 -/

/-- C9 counterexample: with an existing-but-invalid working copy whose
directory removal fails, `updateRepository` returns the removal error
and `clone` is invoked zero times — not exactly once as the claim
states for the invalid-working-copy case. -/
theorem updateRepository_no_clone_on_remove_failure :
    (updateRepository removeFailGit).2.count .clone = 0 ∧
    (updateRepository removeFailGit).1 = .error "removeAll failed" := by
  constructor <;> rfl

/-- C9 amended: `pull` is invoked (once) exactly when the working copy
validates and can be fast-forwarded, and a successful pull ends the sync
without cloning; in every other case a directory removal is attempted
exactly when a stale working copy was present, and `clone` is then
invoked exactly once — unless that removal itself fails, in which case
`updateRepository` returns the removal error without cloning. -/
theorem updateRepository_pull_clone_policy (g : GitEnv) :
    ((updateRepository g).2.count .pull
        = (if g.validateRepo = .ok ∧ g.canBePulled = true then 1 else 0)) ∧
    (g.validateRepo = .ok → g.canBePulled = true → g.pullOk = true →
       (updateRepository g).1 = .ok () ∧ (updateRepository g).2.count .clone = 0) ∧
    ((updateRepository g).2.count .removeAll = (if staleRemovalNeeded g = true then 1 else 0)) ∧
    (¬(g.validateRepo = .ok ∧ g.canBePulled = true ∧ g.pullOk = true) →
       (staleRemovalNeeded g = true ∧ g.removeAllOk = false →
          (updateRepository g).2.count .clone = 0 ∧
          (updateRepository g).1 = .error "removeAll failed") ∧
       (¬(staleRemovalNeeded g = true ∧ g.removeAllOk = false) →
          (updateRepository g).2.count .clone = 1)) := by
  rcases g with ⟨v, cb, p, r, c⟩
  rcases v <;> rcases cb <;> rcases p <;> rcases r <;> rcases c <;> decide

/-- Witness for C9 (amended): a valid, fast-forwardable working copy
with a successful pull ends the sync with no clone. -/
theorem updateRepository_pull_clone_policy_witness :
    (updateRepository pullOkGit).1 = .ok () ∧
    (updateRepository pullOkGit).2.count .clone = 0 :=
  (updateRepository_pull_clone_policy pullOkGit).2.1 rfl rfl rfl

/-! ## Claim C1 -/

/-- C1: the claim fails on the code — `defer t.destroyKeys()` in `Run`
is registered only after `prepareRun` has returned successfully, so a
prepare failure *after* `installInventory` recorded an
`AccessKeyInstallation` (here: dependency installation fails) returns
from `Run` with one installation recorded and zero cleanup calls. -/
theorem run_skips_cleanup_when_prepare_fails :
    (Run sampleConfig galaxyFailEnv keyedJob "admin" Option.none).1 = .err "galaxy failed" ∧
    (Run sampleConfig galaxyFailEnv keyedJob "admin" Option.none).2.count
        (.installKey .sshLogin) = 1 ∧
    (Run sampleConfig galaxyFailEnv keyedJob "admin" Option.none).2.count .destroyKeys = 0 :=
  ⟨rfl, rfl, rfl⟩

/-! ## Claim C2 -/

/-- C2 counterexample: a template whose app kind is unsupported makes
`Run` panic (aborting the process) instead of returning a typed
configuration error. -/
theorem run_unknown_app_panics_counterexample :
    (Run sampleConfig allOkEnv unknownAppJob "admin" Option.none).1
      = .panicked "unknown template app" := rfl

/-- C2 amended: for every configuration whose Template carries an app
kind the core does not support and whose prepare phase succeeds, `Run`
panics with "unknown template app" (a process abort, with the deferred
cleanup still running during unwinding) rather than returning a typed
configuration error; only when a prepare step fails first does `Run`
return an ordinary error. -/
theorem run_unknown_app_panics (cfg : Config) (env : ExtEnv) (t : LocalJob)
    (u : String) (iv : Option String) (s : String)
    (happ : t.template.app = .other s)
    (hprep : (prepareRun env t).1 = .ok ()) :
    (Run cfg env t u iv).1 = .panicked "unknown template app" := by
  unfold Run
  rcases hp : prepareRun env t with ⟨res, evs⟩
  rw [hp] at hprep
  simp only at hprep
  subst hprep
  simp [happ]

/-- Witness for C2 (amended) at a concrete input. -/
theorem run_unknown_app_panics_witness :
    (Run sampleConfig allOkEnv unknownAppJob2 "admin" Option.none).1
      = .panicked "unknown template app" :=
  run_unknown_app_panics sampleConfig allOkEnv unknownAppJob2 "admin" Option.none
    "pulumi" rfl rfl

/-! ## Claim C3 -/

/-- C3: the claim fails on the code — when `Environment.JSON` is
malformed and neither a template- nor a task-level argument list is
stored, the named return `err` set by the extra-variables block is never
overwritten: `getPlaybookArgs` does log the two warning messages and
builds the vector without the payload, but returns a non-nil error, and
`Run` aborts without starting the process. -/
theorem getPlaybookArgs_aborts_on_extravars_error :
    (getPlaybookArgs sampleConfig badEnvJob "admin" Option.none).err
        = some "unmarshal: \x7boops" ∧
    (getPlaybookArgs sampleConfig badEnvJob "admin" Option.none).logs
        = ["unmarshal: \x7boops",
           "Could not remove command environment, if existant it will be passed to --extra-vars. This is not fatal but be aware of side effects"] ∧
    (getPlaybookArgs sampleConfig badEnvJob "admin" Option.none).args
        = ["-i", "/tmp/sem/inventory_42", "site.yml"] ∧
    (Run sampleConfig allOkEnv badEnvJob "admin" Option.none).1
        = .err "unmarshal: \x7boops" ∧
    (Run sampleConfig allOkEnv badEnvJob "admin" Option.none).2.count .appStart = 0 :=
  ⟨rfl, rfl, rfl, rfl, rfl⟩

/-! ## Remaining witnesses -/

/-- Witness for C5: on a fully featured configuration the successful
argument vector equals the spec's fixed-order assembly. -/
theorem getPlaybookArgs_argument_order_witness :
    (getPlaybookArgs sampleConfig richJob "admin" (some "55")).err = Option.none ∧
    (getPlaybookArgs sampleConfig richJob "admin" (some "55")).args
      = specOrderedArgs sampleConfig richJob "admin" (some "55") :=
  ⟨rfl, getPlaybookArgs_argument_order sampleConfig richJob "admin" (some "55") rfl⟩

/-- Witness for C6: on a build-kind job with a message, a target version
and an incoming version, the task-details map holds all three. -/
theorem extraVars_taskDetails_witness :
    (taskDetailsEV buildJob "admin" (some "1.2.3")).lookup "target_version"
        = some (.str "v1") ∧
    (taskDetailsEV buildJob "admin" (some "1.2.3")).lookup "incoming_version"
        = some (.str "1.2.3") ∧
    (taskDetailsEV buildJob "admin" (some "1.2.3")).lookup "message"
        = some (.str "hello") := by
  obtain ⟨m, hok, hsv, h1, h2, h3, h4, h5, h6⟩ :=
    extraVars_taskDetails buildJob "admin" (some "1.2.3") rfl
  exact ⟨h6, h5, h2⟩

end Semaphore
